import Mathlib

/-!
Shallow embedding of `src/rest_client.py`, a thin wrapper around an HTTP
transport. The `RESTClient` class stores a base URL, optional auth pair,
optional timeout and a TLS-verify flag, and exposes `get`, `post`, `put`,
`patch` and `delete`, each of which builds `url = self.base_url + endpoint`,
hands the request to the transport, and returns `response.json()`.

Modelling choices:
- A `Transport` is a function from the issued `Request` to a `Response`;
  this stands for the `requests.get`/`post`/`put`/`patch`/`delete` calls.
- `Response.jsonResult` models the outcome of `response.json()`: either the
  decoded JSON value or the decoder error that `.json()` would raise
  (empty or non-JSON body). The client never catches it, so each method
  returns the `Except` unchanged.
- Python methods run on a mutable `self`; each embedded method therefore
  returns the pair (result, self-after-the-call), translated line by line
  from the source, whose bodies never assign to `self`.
- Python keyword-argument binding for `put`/`patch` is embedded in
  `callPut`/`callPatch`: passing a keyword absent from the signature
  raises `TypeError` before any request is issued.
-/

/-- JSON values, the result type of `response.json()` decoding. -/
inductive Json where
  | null : Json
  | bool : Bool → Json
  | num : Int → Json
  | str : String → Json
  | arr : List Json → Json
  | obj : List (String × Json) → Json

/-- Query parameters: a mapping of string to string, as in `get(endpoint, params=None)`. -/
abbrev Params := List (String × String)

/-- The five HTTP methods the client exposes. -/
inductive Method where
  | get : Method
  | post : Method
  | put : Method
  | patch : Method
  | delete : Method

/-- An issued HTTP request: everything the client passes to the transport
(`requests.<method>(url, auth=..., timeout=..., verify=..., params=..., data=..., json=...)`). -/
structure Request where
  method : Method
  url : String
  auth : Option (String × String)
  timeout : Option Nat
  verify : Bool
  params : Option Params
  data : Option Json
  json : Option Json

/-- A transport response: the HTTP status code, and the outcome of
`response.json()` — the decoded body, or the decoder error it raises. -/
structure Response where
  status : Nat
  jsonResult : Except String Json

/-- The underlying HTTP transport (the `requests` library): a function
from the issued request to the response. -/
abbrev Transport := Request → Response

/-- The client state: the four configuration fields stored by `__init__`. -/
structure RESTClient where
  base_url : String
  auth : Option (String × String)
  timeout : Option Nat
  verify : Bool

/-- Source default `auth=None` in `__init__`. -/
def init_auth_default : Option (String × String) := none

/-- Source default `timeout=None` in `__init__`. -/
def init_timeout_default : Option Nat := none

/-- Source default `verify=True` in `__init__`. -/
def init_verify_default : Bool := true

/-- Embedding of `RESTClient.__init__`: stores the four fields verbatim,
performing no validation of the base URL and issuing no request. -/
def RESTClient.init (base_url : String) (auth : Option (String × String))
    (timeout : Option Nat) (verify : Bool) : RESTClient :=
  ⟨base_url, auth, timeout, verify⟩

/-- The request issued by `RESTClient.get`: `url = self.base_url + endpoint`,
then `requests.get(url, auth=self.auth, timeout=self.timeout, verify=self.verify, params=params)`. -/
def RESTClient.getRequest (c : RESTClient) (endpoint : String)
    (params : Option Params) : Request :=
  ⟨Method.get, c.base_url ++ endpoint, c.auth, c.timeout, c.verify, params, none, none⟩

/-- Embedding of `RESTClient.get`: issues the GET request and returns
`response.json()`; the second component is `self` after the call. -/
def RESTClient.get (c : RESTClient) (t : Transport) (endpoint : String)
    (params : Option Params) : Except String Json × RESTClient :=
  ((t (c.getRequest endpoint params)).jsonResult, c)

/-- The request issued by `RESTClient.post`: `url = self.base_url + endpoint`,
then `requests.post(url, auth=self.auth, timeout=self.timeout, verify=self.verify, data=data, json=json)`. -/
def RESTClient.postRequest (c : RESTClient) (endpoint : String)
    (data : Option Json) (json : Option Json) : Request :=
  ⟨Method.post, c.base_url ++ endpoint, c.auth, c.timeout, c.verify, none, data, json⟩

/-- Embedding of `RESTClient.post`: issues the POST request and returns
`response.json()`; the second component is `self` after the call. -/
def RESTClient.post (c : RESTClient) (t : Transport) (endpoint : String)
    (data : Option Json) (json : Option Json) : Except String Json × RESTClient :=
  ((t (c.postRequest endpoint data json)).jsonResult, c)

/-- The request issued by `RESTClient.put`: `url = self.base_url + endpoint`,
then `requests.put(url, auth=self.auth, timeout=self.timeout, verify=self.verify, data=data)`. -/
def RESTClient.putRequest (c : RESTClient) (endpoint : String)
    (data : Option Json) : Request :=
  ⟨Method.put, c.base_url ++ endpoint, c.auth, c.timeout, c.verify, none, data, none⟩

/-- Embedding of `RESTClient.put`: issues the PUT request and returns
`response.json()`; the second component is `self` after the call. -/
def RESTClient.put (c : RESTClient) (t : Transport) (endpoint : String)
    (data : Option Json) : Except String Json × RESTClient :=
  ((t (c.putRequest endpoint data)).jsonResult, c)

/-- The request issued by `RESTClient.patch`: `url = self.base_url + endpoint`,
then `requests.patch(url, auth=self.auth, timeout=self.timeout, verify=self.verify, data=data)`. -/
def RESTClient.patchRequest (c : RESTClient) (endpoint : String)
    (data : Option Json) : Request :=
  ⟨Method.patch, c.base_url ++ endpoint, c.auth, c.timeout, c.verify, none, data, none⟩

/-- Embedding of `RESTClient.patch`: issues the PATCH request and returns
`response.json()`; the second component is `self` after the call. -/
def RESTClient.patch (c : RESTClient) (t : Transport) (endpoint : String)
    (data : Option Json) : Except String Json × RESTClient :=
  ((t (c.patchRequest endpoint data)).jsonResult, c)

/-- The request issued by `RESTClient.delete`: `url = self.base_url + endpoint`,
then `requests.delete(url, auth=self.auth, timeout=self.timeout, verify=self.verify)`. -/
def RESTClient.deleteRequest (c : RESTClient) (endpoint : String) : Request :=
  ⟨Method.delete, c.base_url ++ endpoint, c.auth, c.timeout, c.verify, none, none, none⟩

/-- Embedding of `RESTClient.delete`: issues the DELETE request and returns
`response.json()`; the second component is `self` after the call. -/
def RESTClient.delete (c : RESTClient) (t : Transport) (endpoint : String) :
    Except String Json × RESTClient :=
  ((t (c.deleteRequest endpoint)).jsonResult, c)

/-- Source default `params=None` in `get`. -/
def get_params_default : Option Params := none

/-- Source default `data=None` in `post`. -/
def post_data_default : Option Json := none

/-- Source default `json=None` in `post`. -/
def post_json_default : Option Json := none

/-- Source default `data=None` in `put`. -/
def put_data_default : Option Json := none

/-- Source default `data=None` in `patch`. -/
def patch_data_default : Option Json := none

/-- A transport that answers every request with the same response, as the
mocked `requests.<method>` objects do in the test suite. -/
def constTransport (r : Response) : Transport := fun _ => r

/-- Python runtime errors raised before any request is issued. -/
inductive PyError where
  | typeError : String → PyError

/-- Keyword names accepted by the source signature `put(self, endpoint, data=None)`. -/
def put_kw : List String := ["data"]

/-- Keyword names accepted by the source signature `patch(self, endpoint, data=None)`. -/
def patch_kw : List String := ["data"]

/-- Python call semantics for `client.put(endpoint, **kwargs)` with
JSON-valued keyword arguments: a keyword absent from the signature raises
`TypeError` before any request is issued; otherwise `data` is taken from
the kwargs, defaulting to `None`. -/
def callPut (c : RESTClient) (t : Transport) (endpoint : String)
    (kwargs : List (String × Json)) : Except PyError (Except String Json × RESTClient) :=
  if kwargs.all (fun kv => put_kw.contains kv.1) then
    Except.ok (c.put t endpoint ((kwargs.find? (fun kv => kv.1 == "data")).map Prod.snd))
  else
    Except.error (PyError.typeError "unexpected keyword argument")

/-- Python call semantics for `client.patch(endpoint, **kwargs)` with
JSON-valued keyword arguments: a keyword absent from the signature raises
`TypeError` before any request is issued; otherwise `data` is taken from
the kwargs, defaulting to `None`. -/
def callPatch (c : RESTClient) (t : Transport) (endpoint : String)
    (kwargs : List (String × Json)) : Except PyError (Except String Json × RESTClient) :=
  if kwargs.all (fun kv => patch_kw.contains kv.1) then
    Except.ok (c.patch t endpoint ((kwargs.find? (fun kv => kv.1 == "data")).map Prod.snd))
  else
    Except.error (PyError.typeError "unexpected keyword argument")

/-- The client built in the test suite: `RESTClient("https://jsonplaceholder.typicode.com")`. -/
def testClient : RESTClient :=
  RESTClient.init "https://jsonplaceholder.typicode.com"
    init_auth_default init_timeout_default init_verify_default

/-- The mocked response of the put and patch tests: status 200 and body
decoding to the object with id 1 and title "Test". -/
def titleTestResponse : Response :=
  ⟨200, Except.ok (Json.obj [("id", Json.num 1), ("title", Json.str "Test")])⟩

/-- Claim C1: for every method, every base URL and every endpoint string, the
URL of the issued request equals `base_url ++ endpoint`, plain string
concatenation with no normalization, slash insertion or encoding. -/
theorem C1_url_is_plain_concat (c : RESTClient) (e : String)
    (p : Option Params) (d j : Option Json) :
    (c.getRequest e p).url = c.base_url ++ e ∧
    (c.postRequest e d j).url = c.base_url ++ e ∧
    (c.putRequest e d).url = c.base_url ++ e ∧
    (c.patchRequest e d).url = c.base_url ++ e ∧
    (c.deleteRequest e).url = c.base_url ++ e :=
  ⟨rfl, rfl, rfl, rfl, rfl⟩

/-- Claim C2: for every method and every client configuration, the auth,
timeout and verify values stored at construction are forwarded to the
transport unchanged on every call. -/
theorem C2_config_forwarded_unchanged (c : RESTClient) (e : String)
    (p : Option Params) (d j : Option Json) :
    ((c.getRequest e p).auth = c.auth ∧ (c.getRequest e p).timeout = c.timeout ∧
      (c.getRequest e p).verify = c.verify) ∧
    ((c.postRequest e d j).auth = c.auth ∧ (c.postRequest e d j).timeout = c.timeout ∧
      (c.postRequest e d j).verify = c.verify) ∧
    ((c.putRequest e d).auth = c.auth ∧ (c.putRequest e d).timeout = c.timeout ∧
      (c.putRequest e d).verify = c.verify) ∧
    ((c.patchRequest e d).auth = c.auth ∧ (c.patchRequest e d).timeout = c.timeout ∧
      (c.patchRequest e d).verify = c.verify) ∧
    ((c.deleteRequest e).auth = c.auth ∧ (c.deleteRequest e).timeout = c.timeout ∧
      (c.deleteRequest e).verify = c.verify) :=
  ⟨⟨rfl, rfl, rfl⟩, ⟨rfl, rfl, rfl⟩, ⟨rfl, rfl, rfl⟩, ⟨rfl, rfl, rfl⟩, ⟨rfl, rfl, rfl⟩⟩

/-- Claim C3: no method inspects the HTTP status code: for every method and
every status (2xx or not), a response whose body decodes to JSON value
`body` has that value returned as the result, regardless of status. -/
theorem C3_status_never_inspected (c : RESTClient) (e : String)
    (p : Option Params) (d j : Option Json) (status : Nat) (body : Json) :
    (c.get (constTransport ⟨status, Except.ok body⟩) e p).1 = Except.ok body ∧
    (c.post (constTransport ⟨status, Except.ok body⟩) e d j).1 = Except.ok body ∧
    (c.put (constTransport ⟨status, Except.ok body⟩) e d).1 = Except.ok body ∧
    (c.patch (constTransport ⟨status, Except.ok body⟩) e d).1 = Except.ok body ∧
    (c.delete (constTransport ⟨status, Except.ok body⟩) e).1 = Except.ok body :=
  ⟨rfl, rfl, rfl, rfl, rfl⟩

/-- Claim C4: for every method, when the response body is empty or not valid
JSON — that is, `response.json()` yields a decoder error — the call
propagates that error unchanged to the caller and returns no value. -/
theorem C4_decode_error_propagates (c : RESTClient) (e : String)
    (p : Option Params) (d j : Option Json) (status : Nat) (msg : String) :
    (c.get (constTransport ⟨status, Except.error msg⟩) e p).1 = Except.error msg ∧
    (c.post (constTransport ⟨status, Except.error msg⟩) e d j).1 = Except.error msg ∧
    (c.put (constTransport ⟨status, Except.error msg⟩) e d).1 = Except.error msg ∧
    (c.patch (constTransport ⟨status, Except.error msg⟩) e d).1 = Except.error msg ∧
    (c.delete (constTransport ⟨status, Except.error msg⟩) e).1 = Except.error msg :=
  ⟨rfl, rfl, rfl, rfl, rfl⟩

/-- Claim C5: evaluating the code at the claim's input: the call
`put("/posts/1", json={"title": "Test"})` raises `TypeError` during keyword
binding — the source signature of `put` accepts only `data` — so no request
is issued and no decoded body with title "Test" is returned, even against a
transport whose response decodes to the object with id 1 and title "Test". -/
theorem C5_put_json_keyword_raises :
    callPut testClient (constTransport titleTestResponse) "/posts/1"
        [("json", Json.obj [("title", Json.str "Test")])]
      = Except.error (PyError.typeError "unexpected keyword argument") := rfl

/-- Claim C6: evaluating the code at the claim's input: the call
`patch("/posts/1", json={"title": "Test"})` raises `TypeError` during keyword
binding — the source signature of `patch` accepts only `data` — so no request
is issued and no decoded body with title "Test" is returned, even against a
transport whose response decodes to the object with id 1 and title "Test". -/
theorem C6_patch_json_keyword_raises :
    callPatch testClient (constTransport titleTestResponse) "/posts/1"
        [("json", Json.obj [("title", Json.str "Test")])]
      = Except.error (PyError.typeError "unexpected keyword argument") := rfl

/-- Claim C7: the client configuration is immutable after construction: for
every method, transport and arguments, the client after the call equals the
client before it, so all four configuration fields are exactly as the
constructor set them. -/
theorem C7_config_immutable (c : RESTClient) (t : Transport) (e : String)
    (p : Option Params) (d j : Option Json) :
    (c.get t e p).2 = c ∧
    (c.post t e d j).2 = c ∧
    (c.put t e d).2 = c ∧
    (c.patch t e d).2 = c ∧
    (c.delete t e).2 = c :=
  ⟨rfl, rfl, rfl, rfl, rfl⟩

/-- Claim C8: `post` forwards both the optional form body `data` and the
optional JSON body `json` to the transport exactly as given — including when
both are passed together — issues an HTTP POST, and returns the parsed JSON
response body. -/
theorem C8_post_forwards_both_bodies (c : RESTClient) (t : Transport)
    (e : String) (d j : Option Json) :
    (c.postRequest e d j).data = d ∧
    (c.postRequest e d j).json = j ∧
    (c.postRequest e d j).method = Method.post ∧
    (c.post t e d j).1 = (t (c.postRequest e d j)).jsonResult :=
  ⟨rfl, rfl, rfl, rfl⟩

/-- Claim C9: construction never validates or rejects the base URL: for every
string passed as `base_url` — malformed URLs included — the constructor is a
total function that stores all four fields verbatim and issues no request;
errors from an invalid URL can only arise later, inside a method call. -/
theorem C9_init_stores_verbatim (b : String) (a : Option (String × String))
    (tmo : Option Nat) (v : Bool) :
    (RESTClient.init b a tmo v).base_url = b ∧
    (RESTClient.init b a tmo v).auth = a ∧
    (RESTClient.init b a tmo v).timeout = tmo ∧
    (RESTClient.init b a tmo v).verify = v :=
  ⟨rfl, rfl, rfl, rfl⟩

/-- Claim C10: every optional mapping-valued parameter of the methods —
`params` in `get`, `data` and `json` in `post`, `data` in `put` and `patch` —
defaults to `None`, not to a shared mutable mapping, and a call that omits it
forwards `None` for that field to the transport. -/
theorem C10_optional_defaults_are_none (c : RESTClient) (e : String) :
    get_params_default = none ∧
    post_data_default = none ∧
    post_json_default = none ∧
    put_data_default = none ∧
    patch_data_default = none ∧
    (c.getRequest e get_params_default).params = none ∧
    (c.postRequest e post_data_default post_json_default).data = none ∧
    (c.postRequest e post_data_default post_json_default).json = none ∧
    (c.putRequest e put_data_default).data = none ∧
    (c.patchRequest e patch_data_default).data = none :=
  ⟨rfl, rfl, rfl, rfl, rfl, rfl, rfl, rfl, rfl, rfl⟩
